import Mathlib

/-!
# Verification of the SAP GUI scripting core (`src/sap_scripting.py`)

Shallow embedding of the session / element-locator / popup-monitor /
grid-reader / workflow-helper layer of `sap_scripting.py`, together with
proofs about the embedded definitions.

Modelling conventions:
* COM calls that can raise are embedded as functions returning
  `Except String _` (the `String` is the exception message).
* The live session object is modelled as a structure of query functions
  (`findById`, `press`, ...); a concrete session is a concrete record.
* A Python `dict` record produced by the grid reader is modelled as an
  association list `List (String × String)`; for duplicate-free column
  lists this is in bijection with the Python dict.
* Python truthiness of an `Optional[str]` (`if err:`) is modelled by
  `pyTruthyOptStr`: `None` and `""` are falsy, every other string truthy.
-/

namespace SapScripting

/-- An opaque UI control handle (the COM object returned by `findById` /
`findByName`).  Only its identity matters to the embedded code. -/
structure Ctrl where
  name : String
deriving DecidableEq, Repr

/-- The mutable GUI session as seen by `SapSession` methods: the underlying
COM surface.  `findById` models `session.findById(id)` (which raises on a
miss), `press` models calling `.press()` on a located control (which may
raise, e.g. on a disabled button). -/
structure Session where
  findById : String → Except String Ctrl
  press : Ctrl → Except String Unit
  findByName : String → String → Except String Ctrl
  setText : Ctrl → String → Except String Unit

/-- Embedding of `SapSession.find_by_id` (src/sap_scripting.py:189-203):
`try: return findById(id) except: if raise_error: raise; return None`.
Strict mode propagates the exception; tolerant mode returns `none`. -/
def find_by_id (s : Session) (element_id : String) (raise_error : Bool) :
    Except String (Option Ctrl) :=
  match s.findById element_id with
  | .ok c => .ok (some c)
  | .error e => if raise_error then .error e else .ok none

/-- Embedding of `SapSession.handle_popup` (src/sap_scripting.py:375-391):
optionally check `wnd[1]` tolerantly; if absent return `false`; then
`try: findById(button_id).press(); return True except: return False`. -/
def handle_popup (s : Session) (button_id : String) (check_exists : Bool) :
    Except String Bool :=
  match (if check_exists then find_by_id s "wnd[1]" false else .ok (some ⟨"wnd[1]"⟩)) with
  | .error e => .error e
  | .ok none => .ok false
  | .ok (some _) =>
    match (do let c ← s.findById button_id; s.press c : Except String Unit) with
    | .ok _ => .ok true
    | .error _ => .ok false

/-- Python truthiness of an `Optional[str]`: `None` and the empty string
are falsy, any other string is truthy. -/
def pyTruthyOptStr : Option String → Bool
  | none => false
  | some s => s ≠ ""

/-- The status bar state of a session: `(Text, MessageType)` as read by
`get_statusbar` (src/sap_scripting.py:351-362). -/
structure Statusbar where
  text : String
  messageType : String
deriving DecidableEq, Repr

/-- Embedding of `SapSession.check_statusbar_error`
(src/sap_scripting.py:364-369): returns the status text if the message
type is `"E"` or `"A"`, else `None`. -/
def check_statusbar_error (sb : Statusbar) : Option String :=
  if sb.messageType = "E" ∨ sb.messageType = "A" then some sb.text else none

/-- The `for ftype in [...]: try findByName / break; else: raise` loop of
`set_field` (src/sap_scripting.py:254-261): return the first control found
under the candidate type prefixes, raising `ValueError` when every probe
fails. -/
def findByNameFirst (s : Session) (field_name : String) :
    List String → Except String Ctrl
  | [] => .error ("Field " ++ field_name ++ " not found as ctxt/txt/cmb")
  | t :: ts =>
    match s.findByName field_name t with
    | .ok c => .ok c
    | .error _ => findByNameFirst s field_name ts

/-- Embedding of `SapSession.set_field` (src/sap_scripting.py:243-264):
with an explicit `field_type` look the field up under that type only;
with the empty default, probe the type prefixes `ctxt`, `txt`, `cmb` in
order and take the first hit, raising if all miss.  Then assign
`element.text = value` (outside any handler: a failing assignment
propagates).  Returns the control whose text was set. -/
def set_field (s : Session) (field_name value field_type : String) :
    Except String Ctrl := do
  let element ←
    if field_type ≠ "" then s.findByName field_name field_type
    else findByNameFirst s field_name ["ctxt", "txt", "cmb"]
  let _ ← s.setText element value
  pure element

/-- Per-field outcome of the selection-screen fill loop: either some
control's text was set, or the field was skipped with a warning. -/
inductive FillOutcome
  | set (c : Ctrl)
  | skipped (field_name : String)
deriving DecidableEq, Repr

/-- Embedding of the selection-screen fill loop of `run_transaction_report`
(src/sap_scripting.py:776-784): per field, `try set_field(name, value)`
(default type probing), on failure `try set_field(name, value, "txt")`,
on failure log a warning and continue with the next field — exceptions
never escape the loop. -/
def fill_selection_fields (s : Session) (selection_fields : List (String × String)) :
    List FillOutcome :=
  selection_fields.map fun fv =>
    match set_field s fv.1 fv.2 "" with
    | .ok c => .set c
    | .error _ =>
      match set_field s fv.1 fv.2 "txt" with
      | .ok c => .set c
      | .error _ => .skipped fv.1

/-- Session-lock calls observable during a `locked()` block. -/
inductive UiEvent
  | lockUi
  | unlockUi
deriving DecidableEq, Repr

/-- Embedding of the `locked` context manager (src/sap_scripting.py:653-660):
`lock_ui(); try: yield; finally: unlock_ui()`.  The protected block is a
computation that either completes or raises; the event list records each
`lock_ui` / `unlock_ui` call in order, and the result re-raises the
block's exception after the `finally` clause ran. -/
def locked_run (body : Except String Unit) : Except String Unit × List UiEvent :=
  let locked := [UiEvent.lockUi]
  match body with
  | .ok _ => (.ok (), locked ++ [UiEvent.unlockUi])
  | .error e => (.error e, locked ++ [UiEvent.unlockUi])

/-- A `GuiGridView` control: row count, column identifiers in display
order (`ColumnOrder`), and the per-cell COM call `GetCellValue`, which may
raise (heterogeneous grids can hold unreadable cell types). -/
structure Grid where
  rowCount : Nat
  columnOrder : List String
  getCellValue : Nat → String → Except String String

/-- Embedding of `SapSession.grid_get_columns`
(src/sap_scripting.py:432-439): the column identifiers in display order. -/
def grid_get_columns (g : Grid) : List String :=
  g.columnOrder

/-- Embedding of `SapSession.grid_read_all` (src/sap_scripting.py:463-493).
`columns = none` means "all columns" (taken from `ColumnOrder`);
`max_rows = 0` means unbounded, else the row count is capped.  Each row
becomes a record mapping each requested column to its cell value, a
failing per-cell read degrading to the empty string. -/
def grid_read_all (g : Grid) (columns : Option (List String)) (max_rows : Nat) :
    List (List (String × String)) :=
  let cols := match columns with
    | none => grid_get_columns g
    | some cs => cs
  let total := if max_rows > 0 then min g.rowCount max_rows else g.rowCount
  (List.range total).map fun row =>
    cols.map fun col =>
      (col, match g.getCellValue row col with
            | .ok v => v
            | .error _ => "")

/-- Lexicographic code-point comparison on character lists: the ordering
Python's `sorted` uses on strings. -/
def listCharLe : List Char → List Char → Bool
  | [], _ => true
  | _ :: _, [] => false
  | a :: as, b :: bs =>
    if a.toNat < b.toNat then true
    else if b.toNat < a.toNat then false
    else listCharLe as bs

/-- `s₁ <= s₂` as Python compares strings: lexicographically by code point. -/
def strLe (a b : String) : Bool :=
  listCharLe a.data b.data

/-- Python `str.strip()`: drop leading and trailing whitespace. -/
def pyStrip (s : String) : String :=
  ⟨((s.data.dropWhile Char.isWhitespace).reverse.dropWhile Char.isWhitespace).reverse⟩

/-- Embedding of `SapSession.grid_get_distinct`
(src/sap_scripting.py:495-505): for every row read the cell of `column`
(no per-cell exception handling: a failing read propagates), strip it,
collect into a set, return the sorted sequence.  The Python
`sorted(set(...))` is the sorted duplicate-free list of the stripped
values, embedded as `dedup` followed by a sort under the string ordering
`sorted` uses. -/
def grid_get_distinct (g : Grid) (column : String) : Except String (List String) := do
  let raw ← (List.range g.rowCount).mapM fun row => g.getCellValue row column
  pure (List.insertionSort (fun a b => strLe a b = true) ((raw.map pyStrip).dedup))

/-- The post-execute observable state a workflow helper consults:
the status bar after the execute key, and the result of `find_grid`
(src/sap_scripting.py:397-418), which probes a ranked list of container
paths and yields `none` when no grid control is found. -/
structure ReportState where
  statusbar : Statusbar
  findGridResult : Option Grid

/-- Calls into the grid layer observed during a workflow-helper run,
recorded to state "never invokes the Grid Reader" claims. -/
inductive GridCall
  | findGrid
  | gridReadAll
deriving DecidableEq, Repr

/-- Embedding of the tail of `run_transaction_report`
(src/sap_scripting.py:792-803): after execute and popup handling, read
`check_statusbar_error`; if the result is truthy return `[]`; otherwise
call `find_grid` (recorded), return `[]` if no grid, else call
`grid_read_all` (recorded) with the caller's columns and row cap. -/
def run_transaction_report_tail (st : ReportState)
    (read_columns : Option (List String)) (max_rows : Nat) :
    List (List (String × String)) × List GridCall :=
  let err := check_statusbar_error st.statusbar
  if pyTruthyOptStr err then ([], [])
  else
    match st.findGridResult with
    | none => ([], [.findGrid])
    | some g => (grid_read_all g read_columns max_rows, [.findGrid, .gridReadAll])

/-- One SE16H field configuration (src/sap_scripting.py:676-681):
name, group flag, sum flag, optional selection value. -/
structure SE16Field where
  name : String
  group : Bool
  sum : Bool
  value : Option String
deriving DecidableEq, Repr

/-- Embedding of the tail of `run_se16h` (src/sap_scripting.py:734-752):
after execute and popup handling, read `check_statusbar_error`; if truthy
return `[]`; otherwise call `find_grid` (recorded), return `[]` if no
grid, else read the configured field columns (plus `COUNT` when any field
groups) via `grid_read_all` (recorded). -/
def run_se16h_tail (st : ReportState) (fields : List SE16Field) (max_rows : Nat) :
    List (List (String × String)) × List GridCall :=
  let err := check_statusbar_error st.statusbar
  if pyTruthyOptStr err then ([], [])
  else
    match st.findGridResult with
    | none => ([], [.findGrid])
    | some g =>
      let read_cols := fields.map (·.name) ++
        (if fields.any (·.group) then ["COUNT"] else [])
      (grid_read_all g (some read_cols) max_rows, [.findGrid, .gridReadAll])

/-! ## Concrete mock sessions and grids

Test doubles used to instantiate the theorems below on concrete inputs. -/

/-- A session backed by a finite address → control store: `findById`
resolves by lookup and raises on a miss.  Models the "resolvable store"
mocks of the spec's testable properties. -/
def mkStoreSession (store : List (String × Ctrl)) : Session where
  findById := fun element_id =>
    match store.lookup element_id with
    | some c => .ok c
    | none => .error ("element " ++ element_id ++ " not found")
  press := fun _ => .ok ()
  findByName := fun _ _ => .error "findByName unsupported"
  setText := fun _ _ => .ok ()

/-- A mock session with a secondary window `wnd[1]` present and a dismiss
button that raises on `press`. -/
def pressFailSession : Session where
  findById := fun element_id =>
    if element_id = "wnd[1]" then .ok ⟨"wnd[1]"⟩
    else if element_id = "wnd[1]/tbar[0]/btn[0]" then .ok ⟨"dismissBtn"⟩
    else .error ("element " ++ element_id ++ " not found")
  press := fun _ => .error "press failed"
  findByName := fun _ _ => .error "findByName unsupported"
  setText := fun _ _ => .ok ()

/-- A mock session in which every `findByName` probe misses. -/
def noFieldSession : Session where
  findById := fun _ => .error "not found"
  press := fun _ => .ok ()
  findByName := fun _ _ => .error "no such field"
  setText := fun _ _ => .ok ()

/-- A mock session in which fields resolve only under the `txt` type
prefix (the `ctxt` probe misses) and text assignment succeeds. -/
def txtOnlySession : Session where
  findById := fun _ => .error "not found"
  press := fun _ => .ok ()
  findByName := fun field_name ftype =>
    if ftype = "txt" then .ok ⟨"txt" ++ field_name⟩
    else .error "no such field"
  setText := fun _ _ => .ok ()

/-- A 4-row, 1-column mock grid whose `C` column holds
`"A "`, `"A"`, `" A"`, `"B"` in row order. -/
def distinctGrid : Grid where
  rowCount := 4
  columnOrder := ["C"]
  getCellValue := fun row _ => .ok ((["A ", "A", " A", "B"].get? row).getD "")

/-- A 1-row, 1-column mock grid with a readable cell. -/
def oneCellGrid : Grid where
  rowCount := 1
  columnOrder := ["C"]
  getCellValue := fun _ _ => .ok "v"

/-- A 3-row, 2-column mock grid with readable cells. -/
def threeRowGrid : Grid where
  rowCount := 3
  columnOrder := ["BUKRS", "GJAHR"]
  getCellValue := fun row col => .ok (col ++ toString row)

/-- A 2-row, 2-column mock grid whose `K` column always fails to read
while its `L` column reads fine. -/
def failColGrid : Grid where
  rowCount := 2
  columnOrder := ["K", "L"]
  getCellValue := fun _ col =>
    if col = "K" then .error "unreadable cell" else .ok "x"

/-- Post-execute state reporting severity `E` with an empty message text,
with a results grid present. -/
def emptyErrState : ReportState where
  statusbar := ⟨"", "E"⟩
  findGridResult := some oneCellGrid

/-- Post-execute state reporting severity `E` with a non-empty message
text, with a results grid present. -/
def msgErrState : ReportState where
  statusbar := ⟨"No records found", "E"⟩
  findGridResult := some oneCellGrid

/-! ## Claim C1 — popup dismissal failure -/

/-- Claim C1, counterexample.  The claim states that `handle_popup` raises
when the secondary window is confirmed present but pressing the dismiss
control fails.  On `pressFailSession` the window `wnd[1]` is confirmed
present and `press` on the dismiss button raises, yet `handle_popup`
returns `false` without raising. -/
theorem handle_popup_press_failure_cex :
    pressFailSession.findById "wnd[1]" = .ok ⟨"wnd[1]"⟩ ∧
    pressFailSession.press ⟨"dismissBtn"⟩ = .error "press failed" ∧
    handle_popup pressFailSession "wnd[1]/tbar[0]/btn[0]" true = .ok false :=
  ⟨rfl, rfl, rfl⟩

/-- Claim C1, amended.  For every session state in which the secondary
window is confirmed present but pressing the configured dismiss control
fails, `handle_popup` returns `false` without raising; existence-check
failure alone is likewise tolerated and never raises. -/
theorem handle_popup_failure_tolerance :
    (∀ (s : Session) (button_id : String) (w btn : Ctrl) (e : String),
      s.findById "wnd[1]" = .ok w →
      s.findById button_id = .ok btn →
      s.press btn = .error e →
      handle_popup s button_id true = .ok false) ∧
    (∀ (s : Session) (button_id : String) (e : String),
      s.findById "wnd[1]" = .error e →
      handle_popup s button_id true = .ok false) := by
  constructor
  · intro s button_id w btn e hw hb hp
    simp [handle_popup, find_by_id, hw, hb, hp, Bind.bind, Except.bind]
  · intro s button_id e hw
    simp [handle_popup, find_by_id, hw]

/-- Claim C1 witness: the amended theorem applied to `pressFailSession`. -/
theorem handle_popup_failure_tolerance_witness :
    handle_popup pressFailSession "wnd[1]/tbar[0]/btn[0]" true = .ok false ∧
    handle_popup (mkStoreSession []) "wnd[1]/tbar[0]/btn[0]" true = .ok false :=
  ⟨handle_popup_failure_tolerance.1 pressFailSession "wnd[1]/tbar[0]/btn[0]"
      ⟨"wnd[1]"⟩ ⟨"dismissBtn"⟩ "press failed" rfl rfl rfl,
    handle_popup_failure_tolerance.2 (mkStoreSession []) "wnd[1]/tbar[0]/btn[0]"
      "element wnd[1] not found" rfl⟩

/-! ## Claim C2 — error short-circuit in the workflow helpers -/

/-- Claim C2, counterexample.  The claim states that any post-execute
status of severity Error or Abort makes the helper return `[]` without
touching the grid.  With severity `E` but an empty message text the
truthiness test fails, the grid is probed and read, and a non-empty
result is returned. -/
theorem workflow_error_short_circuit_cex :
    emptyErrState.statusbar.messageType = "E" ∧
    run_transaction_report_tail emptyErrState none 0 =
      ([[("C", "v")]], [.findGrid, .gridReadAll]) :=
  ⟨rfl, rfl⟩

/-- Claim C2, amended.  For every run of a workflow helper
(`run_transaction_report` or `run_se16h`) in which the post-execute
status readout has severity Error or Abort and a non-empty message text,
the helper returns an empty result list and never invokes the grid layer
(no `find_grid` probe, no `grid_read_all`). -/
theorem workflow_error_short_circuit :
    (∀ (st : ReportState) (read_columns : Option (List String)) (max_rows : Nat),
      (st.statusbar.messageType = "E" ∨ st.statusbar.messageType = "A") →
      st.statusbar.text ≠ "" →
      run_transaction_report_tail st read_columns max_rows = ([], [])) ∧
    (∀ (st : ReportState) (fields : List SE16Field) (max_rows : Nat),
      (st.statusbar.messageType = "E" ∨ st.statusbar.messageType = "A") →
      st.statusbar.text ≠ "" →
      run_se16h_tail st fields max_rows = ([], [])) := by
  constructor
  · intro st read_columns max_rows hsev htext
    rcases hsev with h | h <;>
      simp [run_transaction_report_tail, check_statusbar_error, pyTruthyOptStr, h, htext]
  · intro st fields max_rows hsev htext
    rcases hsev with h | h <;>
      simp [run_se16h_tail, check_statusbar_error, pyTruthyOptStr, h, htext]

/-- Claim C2 witness: the amended theorem applied to a severity-`E` state
and a severity-`A` state with non-empty message text. -/
theorem workflow_error_short_circuit_witness :
    run_transaction_report_tail msgErrState none 0 = ([], []) ∧
    run_se16h_tail ⟨⟨"aborted", "A"⟩, some oneCellGrid⟩ [] 0 = ([], []) :=
  ⟨workflow_error_short_circuit.1 msgErrState none 0 (Or.inl rfl) (by decide),
    workflow_error_short_circuit.2 ⟨⟨"aborted", "A"⟩, some oneCellGrid⟩ [] 0
      (Or.inr rfl) (by decide)⟩

/-! ## Claims C3 and C7 — grid reading -/

/-- Looking a key up in an association list built by pairing each list
element with a function of itself yields the function's value at the key,
whenever the key occurs in the list. -/
theorem lookup_map_pair (f : String → String) (K : String) :
    ∀ cols : List String, K ∈ cols →
      (cols.map fun c => (c, f c)).lookup K = some (f K) := by
  intro cols
  induction cols with
  | nil => intro h; cases h
  | cons c cs ih =>
    intro h
    by_cases hc : K = c
    · subst hc
      simp [List.lookup]
    · have hmem : K ∈ cs := by
        cases List.mem_cons.mp h with
        | inl h' => exact absurd h' hc
        | inr h' => exact h'
      have hbeq : (K == c) = false := beq_eq_false_iff_ne.mpr hc
      simp [List.lookup, hbeq, ih hmem]

/-- Claim C3.  Reading a grid of `N` rows over a duplicate-free list of
column identifiers with no row cap yields exactly `N` records; every
record's key sequence is exactly the requested column list, and a column
`K` whose cell read always fails is mapped to the empty string in every
record while the rest of the row is still emitted. -/
theorem grid_read_all_failing_column (g : Grid) (cols : List String) (K : String)
    (_hnodup : cols.Nodup) (hK : K ∈ cols)
    (hfail : ∀ row, row < g.rowCount → ∀ v, g.getCellValue row K ≠ .ok v) :
    (grid_read_all g (some cols) 0).length = g.rowCount ∧
    ∀ rec ∈ grid_read_all g (some cols) 0,
      rec.map Prod.fst = cols ∧ rec.lookup K = some "" := by
  constructor
  · simp [grid_read_all]
  · intro rec hrec
    simp only [grid_read_all] at hrec
    rw [if_neg (by omega)] at hrec
    rcases List.mem_map.mp hrec with ⟨row, hrowmem, hfr⟩
    have hrow : row < g.rowCount := List.mem_range.mp hrowmem
    subst hfr
    constructor
    · simp [Function.comp_def]
    · rw [lookup_map_pair
        (fun col => match g.getCellValue row col with
          | .ok v => v
          | .error _ => "") K cols hK]
      cases hcell : g.getCellValue row K with
      | ok v => exact absurd hcell (fun h => hfail row hrow v h)
      | error e => simp [hcell]

/-- Claim C3 witness: the 2-row grid whose `K` column always fails. -/
theorem grid_read_all_failing_column_witness :
    (List.Nodup ["K", "L"] ∧ "K" ∈ ["K", "L"] ∧
      (∀ row, row < failColGrid.rowCount → ∀ v,
        failColGrid.getCellValue row "K" ≠ .ok v)) ∧
    ((grid_read_all failColGrid (some ["K", "L"]) 0).length = 2 ∧
      ∀ rec ∈ grid_read_all failColGrid (some ["K", "L"]) 0,
        rec.map Prod.fst = ["K", "L"] ∧ rec.lookup "K" = some "") := by
  have hfail : ∀ row, row < failColGrid.rowCount → ∀ v,
      failColGrid.getCellValue row "K" ≠ .ok v := by
    intro row _ v h
    simp [failColGrid] at h
  exact ⟨⟨by decide, by decide, hfail⟩,
    grid_read_all_failing_column failColGrid ["K", "L"] "K" (by decide) (by decide) hfail⟩

/-- Claim C7.  With the default column selection, `grid_read_all` returns
exactly `rowCount` records when `max_rows = 0` and exactly
`min rowCount max_rows` records when `max_rows > 0`; every record's key
sequence equals the grid's configured column order, independently of the
row — the column identifiers are fixed before row iteration. -/
theorem grid_read_all_row_cap (g : Grid) (max_rows : Nat)
    (_hnodup : g.columnOrder.Nodup) :
    ((max_rows = 0 → (grid_read_all g none max_rows).length = g.rowCount) ∧
      (0 < max_rows →
        (grid_read_all g none max_rows).length = min g.rowCount max_rows)) ∧
    ∀ rec ∈ grid_read_all g none max_rows,
      rec.map Prod.fst = grid_get_columns g := by
  refine ⟨⟨?_, ?_⟩, ?_⟩
  · intro h0
    subst h0
    simp [grid_read_all]
  · intro hpos
    simp [grid_read_all, hpos]
  · intro rec hrec
    simp only [grid_read_all] at hrec
    rcases List.mem_map.mp hrec with ⟨row, _, hfr⟩
    subst hfr
    simp [Function.comp_def, grid_get_columns]

/-- Claim C7 witness: the 3-row grid read uncapped and capped at 2. -/
theorem grid_read_all_row_cap_witness :
    threeRowGrid.columnOrder.Nodup ∧
    (grid_read_all threeRowGrid none 0).length = 3 ∧
    (grid_read_all threeRowGrid none 2).length = 2 ∧
    ∀ rec ∈ grid_read_all threeRowGrid none 2,
      rec.map Prod.fst = ["BUKRS", "GJAHR"] :=
  ⟨by decide,
    (grid_read_all_row_cap threeRowGrid 0 (by decide)).1.1 rfl,
    (grid_read_all_row_cap threeRowGrid 2 (by decide)).1.2 (by decide),
    (grid_read_all_row_cap threeRowGrid 2 (by decide)).2⟩

/-! ## Claim C4 — distinct values: trimmed, deduplicated, sorted -/

/-- Binding a successful `Except` applies the continuation. -/
theorem except_bind_ok {α β : Type} (a : α) (f : α → Except String β) :
    (Except.ok a >>= f) = f a := rfl

/-- Binding a failed `Except` propagates the failure. -/
theorem except_bind_error {α β : Type} (e : String) (f : α → Except String β) :
    ((Except.error e : Except String α) >>= f) = .error e := rfl

/-- `listCharLe` is total. -/
theorem listCharLe_total : ∀ as bs : List Char,
    listCharLe as bs = true ∨ listCharLe bs as = true := by
  intro as
  induction as with
  | nil => intro bs; left; rfl
  | cons a as ih =>
    intro bs
    cases bs with
    | nil => right; rfl
    | cons b bs =>
      by_cases hab : a.toNat < b.toNat
      · left; simp [listCharLe, hab]
      · by_cases hba : b.toNat < a.toNat
        · right; simp [listCharLe, hba]
        · rcases ih bs with h | h
          · left; simp [listCharLe, hab, hba, h]
          · right; simp [listCharLe, hba, hab, h]

/-- `listCharLe` is transitive. -/
theorem listCharLe_trans : ∀ as bs cs : List Char,
    listCharLe as bs = true → listCharLe bs cs = true →
    listCharLe as cs = true := by
  intro as
  induction as with
  | nil => intro bs cs _ _; rfl
  | cons a as ih =>
    intro bs cs h1 h2
    cases bs with
    | nil => simp [listCharLe] at h1
    | cons b bs =>
      cases cs with
      | nil => simp [listCharLe] at h2
      | cons c cs =>
        simp only [listCharLe] at h1 h2 ⊢
        by_cases hab : a.toNat < b.toNat
        · by_cases hbc : b.toNat < c.toNat
          · simp [show a.toNat < c.toNat by omega]
          · by_cases hcb : c.toNat < b.toNat
            · rw [if_neg hbc, if_pos hcb] at h2; exact Bool.noConfusion h2
            · simp [show a.toNat < c.toNat by omega]
        · by_cases hba : b.toNat < a.toNat
          · rw [if_neg hab, if_pos hba] at h1; exact Bool.noConfusion h1
          · rw [if_neg hab, if_neg hba] at h1
            by_cases hbc : b.toNat < c.toNat
            · simp [show a.toNat < c.toNat by omega]
            · by_cases hcb : c.toNat < b.toNat
              · rw [if_neg hbc, if_pos hcb] at h2; exact Bool.noConfusion h2
              · rw [if_neg hbc, if_neg hcb] at h2
                rw [if_neg (show ¬a.toNat < c.toNat by omega),
                  if_neg (show ¬c.toNat < a.toNat by omega)]
                exact ih bs cs h1 h2

/-- The string comparison used by the embedded `sorted` is total. -/
theorem strLe_total (a b : String) : strLe a b = true ∨ strLe b a = true :=
  listCharLe_total a.data b.data

/-- The string comparison used by the embedded `sorted` is transitive. -/
theorem strLe_trans (a b c : String) :
    strLe a b = true → strLe b c = true → strLe a c = true :=
  listCharLe_trans a.data b.data c.data

/-- Claim C4.  When every cell of the requested column reads successfully,
`grid_get_distinct` returns the column's values stripped of surrounding
whitespace, deduplicated and sorted: the result is a sorted, duplicate-free
list whose members are exactly the stripped cell values.  In particular
the cell values `["A ", "A", " A", "B"]` yield `["A", "B"]`. -/
theorem grid_get_distinct_spec :
    (∀ (g : Grid) (column : String) (vs : List String),
      (List.range g.rowCount).mapM (fun row => g.getCellValue row column) = .ok vs →
      ∃ l, grid_get_distinct g column = .ok l ∧
        List.Sorted (fun a b => strLe a b = true) l ∧
        l.Nodup ∧
        (∀ x, x ∈ l ↔ x ∈ vs.map pyStrip)) ∧
    grid_get_distinct distinctGrid "C" = .ok ["A", "B"] := by
  constructor
  · intro g column vs hreads
    refine ⟨List.insertionSort (fun a b => strLe a b = true) ((vs.map pyStrip).dedup),
      ?_, ?_, ?_, ?_⟩
    · simp only [grid_get_distinct, hreads, except_bind_ok]
      rfl
    · exact @List.sorted_insertionSort String (fun a b => strLe a b = true) _
        ⟨strLe_total⟩ ⟨strLe_trans⟩ _
    · exact ((List.perm_insertionSort _ _).nodup_iff).mpr (List.nodup_dedup _)
    · intro x
      rw [(List.perm_insertionSort _ _).mem_iff, List.mem_dedup]
  · rfl

/-- Claim C4 witness: the 4-row mock grid holding `"A s"`, `"A"`, `" A"`,
`"B"` — all reads succeed, and the characterization applies. -/
theorem grid_get_distinct_spec_witness :
    ((List.range distinctGrid.rowCount).mapM
        (fun row => distinctGrid.getCellValue row "C") =
      .ok ["A ", "A", " A", "B"]) ∧
    (∃ l, grid_get_distinct distinctGrid "C" = .ok l ∧
      List.Sorted (fun a b => strLe a b = true) l ∧
      l.Nodup ∧
      (∀ x, x ∈ l ↔ x ∈ ["A ", "A", " A", "B"].map pyStrip)) :=
  ⟨rfl, grid_get_distinct_spec.1 distinctGrid "C" ["A ", "A", " A", "B"] rfl⟩

/-! ## Claim C8 — ordered fallback and non-aborting fill loop -/

/-- Claim C8.  In default mode `set_field` probes the control-type
prefixes in the fixed order `ctxt`, `txt`, `cmb` (first hit wins, all
misses raise), and the selection-screen fill loop processes every field:
a field not settable under any attempted type becomes `skipped` while the
loop emits one outcome per field and never aborts. -/
theorem fill_loop_fallback_and_robustness :
    (∀ (s : Session) (f : String) (c : Ctrl),
      s.findByName f "ctxt" = .ok c →
      findByNameFirst s f ["ctxt", "txt", "cmb"] = .ok c) ∧
    (∀ (s : Session) (f e : String) (c : Ctrl),
      s.findByName f "ctxt" = .error e →
      s.findByName f "txt" = .ok c →
      findByNameFirst s f ["ctxt", "txt", "cmb"] = .ok c) ∧
    (∀ (s : Session) (f e₁ e₂ : String) (c : Ctrl),
      s.findByName f "ctxt" = .error e₁ →
      s.findByName f "txt" = .error e₂ →
      s.findByName f "cmb" = .ok c →
      findByNameFirst s f ["ctxt", "txt", "cmb"] = .ok c) ∧
    (∀ (s : Session) (f e₁ e₂ e₃ : String),
      s.findByName f "ctxt" = .error e₁ →
      s.findByName f "txt" = .error e₂ →
      s.findByName f "cmb" = .error e₃ →
      ∃ e, findByNameFirst s f ["ctxt", "txt", "cmb"] = .error e) ∧
    (∀ (s : Session) (selection_fields : List (String × String)),
      (fill_selection_fields s selection_fields).length = selection_fields.length) ∧
    (∀ (s : Session) (selection_fields : List (String × String))
        (i : Nat) (field_name value : String),
      selection_fields[i]? = some (field_name, value) →
      (∀ c, set_field s field_name value "" ≠ .ok c) →
      (∀ c, set_field s field_name value "txt" ≠ .ok c) →
      (fill_selection_fields s selection_fields)[i]? =
        some (.skipped field_name)) := by
  refine ⟨?_, ?_, ?_, ?_, ?_, ?_⟩
  · intro s f c h
    simp [findByNameFirst, h]
  · intro s f e c h1 h2
    simp [findByNameFirst, h1, h2]
  · intro s f e₁ e₂ c h1 h2 h3
    simp [findByNameFirst, h1, h2, h3]
  · intro s f e₁ e₂ e₃ h1 h2 h3
    refine ⟨"Field " ++ f ++ " not found as ctxt/txt/cmb", ?_⟩
    simp [findByNameFirst, h1, h2, h3]
  · intro s selection_fields
    simp [fill_selection_fields]
  · intro s selection_fields i field_name value hi h1 h2
    have hmap : (fill_selection_fields s selection_fields)[i]? =
        Option.map (fun fv =>
          match set_field s fv.1 fv.2 "" with
          | .ok c => FillOutcome.set c
          | .error _ =>
            match set_field s fv.1 fv.2 "txt" with
            | .ok c => FillOutcome.set c
            | .error _ => FillOutcome.skipped fv.1) selection_fields[i]? := by
      simp [fill_selection_fields]
    rw [hmap, hi]
    cases hc1 : set_field s field_name value "" with
    | ok c => exact absurd hc1 (h1 c)
    | error e =>
      cases hc2 : set_field s field_name value "txt" with
      | ok c => exact absurd hc2 (h2 c)
      | error e2 => simp [hc1, hc2]

/-- Claim C8 witness: a session resolving fields only under `txt` (the
fallback fires), and a session resolving nothing (both fields skipped,
loop completes over both). -/
theorem fill_loop_fallback_and_robustness_witness :
    (txtOnlySession.findByName "BUKRS" "ctxt" = .error "no such field" ∧
      findByNameFirst txtOnlySession "BUKRS" ["ctxt", "txt", "cmb"] =
        .ok ⟨"txtBUKRS"⟩) ∧
    (fill_selection_fields noFieldSession [("BUKRS", "1000"), ("GJAHR", "2024")]).length = 2 ∧
    (fill_selection_fields noFieldSession [("BUKRS", "1000"), ("GJAHR", "2024")])[0]? =
      some (.skipped "BUKRS") := by
  refine ⟨⟨rfl, fill_loop_fallback_and_robustness.2.1 txtOnlySession "BUKRS"
      "no such field" ⟨"txtBUKRS"⟩ rfl rfl⟩, ?_, ?_⟩
  · exact fill_loop_fallback_and_robustness.2.2.2.2.1 noFieldSession
      [("BUKRS", "1000"), ("GJAHR", "2024")]
  · refine fill_loop_fallback_and_robustness.2.2.2.2.2 noFieldSession
      [("BUKRS", "1000"), ("GJAHR", "2024")] 0 "BUKRS" "1000" rfl ?_ ?_
    · intro c h
      simp [set_field, noFieldSession, findByNameFirst, Bind.bind, Except.bind] at h
    · intro c h
      simp [set_field, noFieldSession, Bind.bind, Except.bind] at h

/-! ## Claim C10 — `grid_get_distinct` has no per-cell fault tolerance -/

/-- If `f` fails on some member of the list, `mapM f` over the list fails. -/
theorem mapM_error_of_mem (f : Nat → Except String String) :
    ∀ (l : List Nat) (x : Nat), x ∈ l → (∀ v, f x ≠ .ok v) →
      ∃ e, l.mapM f = .error e := by
  intro l
  induction l with
  | nil => intro x hx; cases hx
  | cons a as ih =>
    intro x hx hfail
    rw [List.mapM_cons]
    cases List.mem_cons.mp hx with
    | inl h =>
      subst h
      cases hfx : f x with
      | ok v => exact absurd hfx (hfail v)
      | error e => exact ⟨e, by rfl⟩
    | inr h =>
      cases hfa : f a with
      | ok v =>
        rcases ih x h hfail with ⟨e, he⟩
        refine ⟨e, ?_⟩
        simp only [except_bind_ok, he]
        rfl
      | error e => exact ⟨e, by rfl⟩

/-- Claim C10.  If reading some cell of the requested column fails,
`grid_get_distinct` propagates the failure to the caller instead of
degrading that cell to an empty string — unlike `grid_read_all`, which
still emits one record per row over the same grid. -/
theorem grid_get_distinct_propagates_failure (g : Grid) (column : String)
    (row : Nat) (hrow : row < g.rowCount)
    (hfail : ∀ v, g.getCellValue row column ≠ .ok v) :
    (∃ e, grid_get_distinct g column = .error e) ∧
    (grid_read_all g (some [column]) 0).length = g.rowCount := by
  constructor
  · rcases mapM_error_of_mem (fun r => g.getCellValue r column)
      (List.range g.rowCount) row (List.mem_range.mpr hrow) hfail with ⟨e, he⟩
    exact ⟨e, by simp only [grid_get_distinct, he]; rfl⟩
  · simp [grid_read_all]

/-- Claim C10 witness: the grid whose `K` column is unreadable — the
distinct-values helper fails while `grid_read_all` still returns both
rows. -/
theorem grid_get_distinct_propagates_failure_witness :
    (0 < failColGrid.rowCount ∧
      ∀ v, failColGrid.getCellValue 0 "K" ≠ .ok v) ∧
    ((∃ e, grid_get_distinct failColGrid "K" = .error e) ∧
      (grid_read_all failColGrid (some ["K"]) 0).length = 2) := by
  have hfail : ∀ v, failColGrid.getCellValue 0 "K" ≠ .ok v := by
    intro v h
    simp [failColGrid] at h
  exact ⟨⟨by decide, hfail⟩,
    grid_get_distinct_propagates_failure failColGrid "K" 0 (by decide) hfail⟩

/-! ## Claim C5 — strict vs tolerant element resolution -/

/-- Claim C5.  Over a resolvable store: strict resolution
(`raise_error = true`) returns the stored control for every present
address and raises on a miss; tolerant resolution (`raise_error = false`)
returns `none` on an absent address without raising. -/
theorem find_by_id_strict_tolerant (store : List (String × Ctrl)) (addr : String) :
    (∀ c, store.lookup addr = some c →
      find_by_id (mkStoreSession store) addr true = .ok (some c) ∧
      find_by_id (mkStoreSession store) addr false = .ok (some c)) ∧
    (store.lookup addr = none →
      (∃ e, find_by_id (mkStoreSession store) addr true = .error e) ∧
      find_by_id (mkStoreSession store) addr false = .ok none) := by
  constructor
  · intro c hc
    constructor <;> simp [find_by_id, mkStoreSession, hc]
  · intro hmiss
    refine ⟨⟨"element " ++ addr ++ " not found", ?_⟩, ?_⟩ <;>
      simp [find_by_id, mkStoreSession, hmiss]

/-- Claim C5 witness: a one-entry store, queried at its present address
and at an absent address. -/
theorem find_by_id_strict_tolerant_witness :
    ([("wnd[0]", Ctrl.mk "root")].lookup "wnd[0]" = some (Ctrl.mk "root") ∧
      find_by_id (mkStoreSession [("wnd[0]", Ctrl.mk "root")]) "wnd[0]" true =
        .ok (some (Ctrl.mk "root"))) ∧
    ([("wnd[0]", Ctrl.mk "root")].lookup "wnd[9]" = none ∧
      find_by_id (mkStoreSession [("wnd[0]", Ctrl.mk "root")]) "wnd[9]" false =
        .ok none) :=
  ⟨⟨rfl, ((find_by_id_strict_tolerant [("wnd[0]", Ctrl.mk "root")] "wnd[0]").1
      (Ctrl.mk "root") rfl).1⟩,
    ⟨rfl, ((find_by_id_strict_tolerant [("wnd[0]", Ctrl.mk "root")] "wnd[9]").2 rfl).2⟩⟩

/-! ## Claim C6 — scoped UI lock releases on every exit path -/

/-- Claim C6.  For every protected block run under `locked()`, the
`unlock_ui` call executes exactly once — on normal completion and on the
exception path alike — and the block's outcome (including a raised
exception) is propagated unchanged. -/
theorem locked_unlocks_exactly_once (body : Except String Unit) :
    ((locked_run body).2.count UiEvent.unlockUi = 1 ∧
      (locked_run body).2.count UiEvent.lockUi = 1) ∧
    (locked_run body).1 = body := by
  cases body <;> exact ⟨⟨rfl, rfl⟩, rfl⟩

/-! ## Claim C9 — empty error text does not short-circuit -/

/-- Claim C9.  When the status bar reports severity Error or Abort with an
empty message text, `check_statusbar_error` returns the empty string, the
truthiness test on it is false, and `run_transaction_report`'s tail
proceeds to probe and read the grid despite the reported severity. -/
theorem empty_error_text_proceeds (st : ReportState) (g : Grid)
    (read_columns : Option (List String)) (max_rows : Nat)
    (hsev : st.statusbar.messageType = "E" ∨ st.statusbar.messageType = "A")
    (htext : st.statusbar.text = "")
    (hgrid : st.findGridResult = some g) :
    check_statusbar_error st.statusbar = some "" ∧
    pyTruthyOptStr (check_statusbar_error st.statusbar) = false ∧
    run_transaction_report_tail st read_columns max_rows =
      (grid_read_all g read_columns max_rows, [.findGrid, .gridReadAll]) := by
  have hcs : check_statusbar_error st.statusbar = some "" := by
    rcases hsev with h | h <;> simp [check_statusbar_error, h, htext]
  refine ⟨hcs, ?_, ?_⟩
  · simp [hcs, pyTruthyOptStr]
  · simp [run_transaction_report_tail, hcs, pyTruthyOptStr, hgrid]

/-- Claim C9 witness: the severity-`E`, empty-text state with a one-cell
grid present — the grid is read and its row is returned. -/
theorem empty_error_text_proceeds_witness :
    check_statusbar_error emptyErrState.statusbar = some "" ∧
    run_transaction_report_tail emptyErrState none 0 =
      (grid_read_all oneCellGrid none 0, [.findGrid, .gridReadAll]) :=
  ⟨(empty_error_text_proceeds emptyErrState oneCellGrid none 0
      (Or.inl rfl) rfl rfl).1,
    (empty_error_text_proceeds emptyErrState oneCellGrid none 0
      (Or.inl rfl) rfl rfl).2.2⟩

end SapScripting
